import Mathlib

/-
  Verification of the authenticated request pipeline of the bfx-api-node-rest
  RESTv2 client (TypeScript source), as a shallow embedding in Lean 4.

  JavaScript values are modelled by the inductive `JSVal` (numbers as integers;
  `null` and `undefined` kept distinct since both are observable).  JS objects
  are modelled as insertion-ordered association lists, matching the engine's
  property order for the non-numeric string keys (currency codes, header names)
  this client manipulates.  External collaborators (`fetch`, `JSON.parse`,
  `genAuthSig`, `nonce`) are parameters of the embedded functions.
-/

namespace BfxRest

/-- Model of a JavaScript value as manipulated by the client. -/
inductive JSVal where
  | null
  | undefined
  | bool (b : Bool)
  | num (n : Int)
  | str (s : String)
  | arr (xs : List JSVal)
  | obj (fields : List (String × JSVal))

/-- JS loose-nil test: `v != null` is false exactly for `null` and `undefined`. -/
def JSVal.isNil : JSVal → Bool
  | .null => true
  | .undefined => true
  | _ => false

/-- JS truthiness: `false`, `0`, `""`, `null`, `undefined` are falsy. -/
def jsTruthy : JSVal → Bool
  | .null => false
  | .undefined => false
  | .bool b => b
  | .num n => n != 0
  | .str s => s != ""
  | .arr _ => true
  | .obj _ => true

/-- JS `a || b`. -/
def jsOr (a b : JSVal) : JSVal := if jsTruthy a then a else b

def JSVal.isUndefinedVal : JSVal → Bool
  | .undefined => true
  | _ => false

def JSVal.isArr : JSVal → Bool
  | .arr _ => true
  | _ => false

/-- Digits for `\uXXXX` escapes. -/
def hexDigit (n : Nat) : Char :=
  if n < 10 then Char.ofNat (48 + n) else Char.ofNat (87 + n)

def hex4 (n : Nat) : String :=
  String.mk [hexDigit (n / 4096 % 16), hexDigit (n / 256 % 16),
             hexDigit (n / 16 % 16), hexDigit (n % 16)]

/-- JSON string escaping of one character, per `JSON.stringify`. -/
def jsonEscapeChar (c : Char) : String :=
  if c = '"' then "\\\""
  else if c = '\\' then "\\\\"
  else if c = '\n' then "\\n"
  else if c = '\r' then "\\r"
  else if c = '\t' then "\\t"
  else if c.toNat = 8 then "\\b"
  else if c.toNat = 12 then "\\f"
  else if c.toNat < 32 then "\\u" ++ hex4 c.toNat
  else String.singleton c

/-- JSON string literal, per `JSON.stringify` of a string. -/
def jsonQuote (s : String) : String :=
  "\"" ++ String.join (s.data.map jsonEscapeChar) ++ "\""

mutual

/-- Model of `JSON.stringify` (an `undefined` array element serializes as
`null`; an `undefined`-valued object field is dropped). -/
def JSVal.stringify : JSVal → String
  | .null => "null"
  | .undefined => "null"
  | .bool b => if b then "true" else "false"
  | .num n => toString n
  | .str s => jsonQuote s
  | .arr xs => "[" ++ stringifyElems xs ++ "]"
  | .obj fs => "\x7b" ++ stringifyFields fs ++ "\x7d"

def stringifyElems : List JSVal → String
  | [] => ""
  | [x] => x.stringify
  | x :: y :: rest => x.stringify ++ "," ++ stringifyElems (y :: rest)

def stringifyFields : List (String × JSVal) → String
  | [] => ""
  | (k, v) :: rest =>
      if v.isUndefinedVal then stringifyFields rest
      else
        let s := jsonQuote k ++ ":" ++ v.stringify
        let r := stringifyFields rest
        if r = "" then s else s ++ "," ++ r

end

/-- Source `omitNil`: keep exactly the fields whose value passes `v != null`. -/
def omitNil (obj : List (String × JSVal)) : List (String × JSVal) :=
  obj.filter (fun kv => !kv.2.isNil)

/-- Model of a JS `Error` object as the client reads and writes it: the
`message`, the fields `_apiError` assigns (`status`, `statustext`, `code`,
`response`), and the `error` property `_cb` inspects (set by no code in this
client, but an arbitrary thrown object may carry it). -/
structure ErrRec where
  message : String
  status : Option Nat
  statustext : Option String
  code : Option JSVal
  response : Option JSVal
  error : Option JSVal

/-- A bare `new Error(msg)`. -/
def mkError (msg : String) : ErrRec :=
  { message := msg, status := none, statustext := none,
    code := none, response := none, error := none }

/-- Outcome of a model-class construction step (`_classTransform`) or of the
whole transform: either raw data, a constructed model instance (identified by
the class name, holding the data handed to the constructor), or an array of
such values. -/
inductive TVal where
  | plain (v : JSVal)
  | inst (cls : String) (d : JSVal)
  | list (xs : List TVal)

/-- The `transformer` argument of the dispatch functions: `null`, a model
class (detected by `isClass`), or a plain function.  A plain function may
throw, modelled by `Except.error`. -/
inductive Transformer where
  | null
  | ctor (cls : String)
  | fn (f : JSVal → Except ErrRec TVal)

/-- Node-style callback `(err, res) => value`; the promise resolves with the
returned value.  Callbacks are modelled as pure (non-throwing) functions. -/
def Callback := Option ErrRec → TVal → TVal

/-- What the promise returned by a dispatch call settles to. -/
inductive CbOutcome where
  | resolve (v : TVal)
  | reject (e : ErrRec)

def CbOutcome.isResolve : CbOutcome → Bool
  | .resolve _ => true
  | .reject _ => false

/-- Help-link text appended by `_cb` for nonce-too-small errors. -/
def HELP_LINK : String :=
  " see https://github.com/bitfinexcom/bitfinex-api-node/blob/master/README.md#nonce-too-small for help"

/-- The message enrichment performed by `_cb`: fires exactly when the error
object has an `error` property holding an array whose element at index 1 is
strictly equal to the number 10114. -/
def enrich10114 (err : ErrRec) : ErrRec :=
  match err.error with
  | some (.arr xs) =>
      match xs[1]? with
      | some (JSVal.num n) =>
          if n = 10114 then { err with message := err.message ++ HELP_LINK } else err
      | _ => err
  | _ => err

/-- Source `_cb(err, res, cb)`: with a function callback, deliver through the
callback and resolve with its return value; otherwise reject (on error, after
enrichment) or resolve with `res`.  In the error branch the callback is
invoked as `cb(err)`, so its second argument is `undefined`. -/
def cbStep (err : Option ErrRec) (res : TVal) (cb : Option Callback) : CbOutcome :=
  match err with
  | some e =>
      let e2 := enrich10114 e
      match cb with
      | some f => .resolve (f (some e2) (.plain .undefined))
      | none => .reject e2
  | none =>
      match cb with
      | some f => .resolve (f none res)
      | none => .resolve res

/-- Source `_apiError(resp, rawBody)`: classify a non-success HTTP response.
`parse` is the `JSON.parse` oracle (its `Except.error` is the thrown
`SyntaxError`, whose value `_apiError` discards). -/
def apiError (parse : String → Except ErrRec JSVal)
    (status : Nat) (statusText : String) (rawBody : String) : ErrRec :=
  let base : ErrRec :=
    { message := "HTTP code " ++ toString status ++ " " ++ statusText,
      status := some status, statustext := some statusText,
      code := none, response := none, error := none }
  match parse rawBody with
  | .error _ => { base with response := some (.str rawBody) }
  | .ok v =>
      match v with
      | .arr xs =>
          if xs.length ≥ 3 then
            { base with code := xs[1]?, response := xs[2]? }
          else
            { base with response := some v }
      | _ => { base with response := some v }

/-- A JS number as far as `Number.isInteger` can see: an integer, or some
non-integral value (`1.5`, `NaN`, `Infinity`, ...). -/
inductive JSNumber where
  | int (i : Int)
  | nonint
  deriving Repr, DecidableEq

def JSNumber.isInteger : JSNumber → Bool
  | .int _ => true
  | .nonint => false

def BASE_TIMEOUT : Int := 15000
def API_URL : String := "https://api.bitfinex.com"

/-- Constructor options (`RESTv2Options`); `none` models an absent /
`undefined` field. -/
structure RESTv2Options where
  affCode : Option String
  apiKey : Option String
  apiSecret : Option String
  authToken : Option String
  company : Option String
  url : Option String
  transform : Option Bool
  timeout : Option JSNumber

/-- An options object with every field absent (`new RESTv2({})`). -/
def emptyOpts : RESTv2Options :=
  { affCode := none, apiKey := none, apiSecret := none, authToken := none,
    company := none, url := none, transform := none, timeout := none }

/-- The client's private fields after construction. -/
structure RESTv2State where
  url : String
  apiKey : String
  apiSecret : String
  authToken : String
  company : String
  transform : Bool
  timeout : Int
  affCode : Option String
  deriving Repr, DecidableEq

/-- JS `a || b` for an optional string field: `undefined` and `""` are falsy. -/
def strOr (a : Option String) (b : String) : String :=
  match a with
  | some s => if s = "" then b else s
  | none => b

/-- Source `_checkOpts`: throws `ERR_TIMEOUT_DATA_TYPE_ERROR` exactly when a
timeout is supplied (`!= null`) and is not an integer. -/
def checkOpts (opts : RESTv2Options) : Except String Unit :=
  match opts.timeout with
  | some t => if t.isInteger then .ok () else .error "ERR_TIMEOUT_DATA_TYPE_ERROR"
  | none => .ok ()

/-- The `RESTv2` constructor.  A synchronous `throw` is the `Except.error`
branch; it happens before any request machinery runs. -/
def construct (opts : RESTv2Options) : Except String RESTv2State :=
  match checkOpts opts with
  | .error e => .error e
  | .ok _ =>
      .ok { url := strOr opts.url API_URL,
            apiKey := strOr opts.apiKey "",
            apiSecret := strOr opts.apiSecret "",
            authToken := strOr opts.authToken "",
            company := strOr opts.company "",
            transform := opts.transform.getD false,
            timeout := match opts.timeout with
                       | some (.int i) => i
                       | _ => BASE_TIMEOUT,
            affCode := opts.affCode }

def Except.isOkB {ε α : Type} : Except ε α → Bool
  | .ok _ => true
  | .error _ => false

-- ---- Response transformation ----

/-- Source `_classTransform(data, ModelClass)`. -/
def classTransform (st : RESTv2State) (data : JSVal) (cls : String) : TVal :=
  if !jsTruthy data || (data matches .arr []) then .list []
  else if !st.transform then .plain data
  else
    match data with
    | .arr (x :: rest) =>
        if x.isArr then .list ((x :: rest).map (fun row => .inst cls row))
        else .inst cls data
    | _ => .inst cls data

/-- Source `_doTransform(data, transformer)`: class transformers (detected by
`isClass`) go through `_classTransform`, plain functions are applied
directly, `null` passes the data through. -/
def doTransform (st : RESTv2State) (data : JSVal) : Transformer → Except ErrRec TVal
  | .ctor cls => .ok (classTransform st data cls)
  | .fn f => f data
  | .null => .ok (.plain data)

/-- The transform step of `_response`: `this._transform ? this._doTransform(data, transformer) : data`. -/
def transformStep (st : RESTv2State) (data : JSVal) (t : Transformer) : Except ErrRec TVal :=
  if st.transform then doTransform st data t else .ok (.plain data)

/-- Source `_response(data, transformer, cb)`: run the transform step inside
`try`, routing a thrown transformer exception to `_cb(e, null, cb)`. -/
def response_ (st : RESTv2State) (data : JSVal) (t : Transformer) (cb : Option Callback) : CbOutcome :=
  match transformStep st data t with
  | .ok res => cbStep none res cb
  | .error e => cbStep (some e) (.plain .null) cb

-- ---- Request dispatch ----

/-- What the injected transport (`fetch`) did: rejected with an error
(network failure, timeout abort), or produced a response with its `ok` flag,
status, status text and raw body text. -/
inductive FetchOutcome where
  | fail (e : ErrRec)
  | resp (ok : Bool) (status : Nat) (statusText : String) (body : String)

/-- Source `_request(url, reqOpts, transformer, cb)` from the moment the
transport settles: non-`ok` responses are classified by `_apiError` and
thrown; `ok` bodies are `JSON.parse`d (a parse failure is thrown); parsed
data goes to `_response`.  Every `throw` lands in the `catch`, which calls
`_cb(err, null, cb)`. -/
def request_ (st : RESTv2State) (parse : String → Except ErrRec JSVal)
    (t : Transformer) (cb : Option Callback) (fetched : FetchOutcome) : CbOutcome :=
  match fetched with
  | .fail e => cbStep (some e) (.plain .null) cb
  | .resp ok status statusText body =>
      if ok then
        match parse body with
        | .error e => cbStep (some e) (.plain .null) cb
        | .ok json => response_ st json t cb
      else
        cbStep (some (apiError parse status statusText body)) (.plain .null) cb

-- ---- Authenticated request construction ----

/-- The request `_makeAuthRequest` hands to the transport, together with the
canonical string it handed to the signer (`none` when token auth was used and
the signer was never invoked). -/
structure ReqDescr where
  url : String
  method : String
  headers : List (String × String)
  body : String
  signerInput : Option String
  deriving Repr, DecidableEq

/-- Source `_makeAuthRequest(path, payload, cb, transformer)` up to the
transport boundary.  `n` is the value of `nonce()` (as interpolated into the
signature string and the `bfx-nonce` header) and `sign` is the
`genAuthSig(secret, payload).sig` oracle.  The `Sum.inl` branch is the
missing-credentials early return through `_cb`: no request is built and the
transport is never invoked.  `Sum.inr` carries the request handed to
`_request`. -/
def makeAuthRequest (st : RESTv2State) (path : String)
    (payload : List (String × JSVal)) (n : String)
    (sign : String → String → String) (cb : Option Callback) :
    Sum CbOutcome ReqDescr :=
  if (st.apiKey = "" ∨ st.apiSecret = "") ∧ st.authToken = "" then
    .inl (cbStep (some (mkError "missing api key or secret")) (.plain .null) cb)
  else
    let url := st.url ++ "/v2" ++ path
    let sanitizedPayload := omitNil payload
    let bodyStr := (JSVal.obj sanitizedPayload).stringify
    let sigPayload := "/api/v2" ++ path ++ n ++ bodyStr
    if st.authToken ≠ "" then
      .inr { url := url, method := "POST",
             headers := [("content-type", "application/json"), ("bfx-nonce", n),
                         ("bfx-token", st.authToken)],
             body := bodyStr, signerInput := none }
    else
      .inr { url := url, method := "POST",
             headers := [("content-type", "application/json"), ("bfx-nonce", n),
                         ("bfx-apikey", st.apiKey),
                         ("bfx-signature", sign st.apiSecret sigPayload)],
             body := bodyStr, signerInput := some sigPayload }

-- ---- Currency list merger ----

/-- A JS object with string keys, modelled as an insertion-ordered
association list (assignment to an existing key updates it in place,
assignment to a fresh key appends). -/
abbrev JSObj := List (String × JSVal)

/-- Property read `m[k]`: `undefined` when absent. -/
def getKey (m : JSObj) (k : String) : JSVal :=
  match List.find? (fun kv => kv.1 == k) m with
  | some kv => kv.2
  | none => .undefined

/-- Property write `m[k] = v`. -/
def setKey (m : JSObj) (k : String) (v : JSVal) : JSObj :=
  if List.any m (fun kv => kv.1 == k) then
    List.map (fun kv => if kv.1 == k then (k, v) else kv) m
  else
    m ++ [(k, v)]

/-- The string a JS value turns into when used as a property key (the
implicit `ToString` performed by bracket access). -/
def jsKeyString : JSVal → String
  | .str s => s
  | .num n => toString n
  | .bool b => if b then "true" else "false"
  | .null => "null"
  | .undefined => "undefined"
  | .arr xs => String.intercalate "," (xs.map (fun x =>
      match x with
      | .null => ""
      | .undefined => ""
      | .str s => s
      | .num n => toString n
      | .bool b => if b then "true" else "false"
      | .arr _ => ""
      | .obj _ => "[object Object]"))
  | .obj _ => "[object Object]"

/-- Source `transformArrToObj(arr)`: a bare entry maps to itself under its
own key; an entry that is an array of length > 1 maps head to second
element; other array entries are skipped. -/
def transformArrToObj (arr : List JSVal) : JSObj :=
  arr.foldl (fun obj c =>
    match c with
    | .arr xs =>
        if xs.length > 1 then
          setKey obj (jsKeyString (xs[0]?.getD .undefined)) (xs[1]?.getD .undefined)
        else obj
    | _ => setKey obj (jsKeyString c) c) []

/-- Object spread `‹...a, ...b›`: assign the entries of `b` over `a` in
order. -/
def mergeObj (a b : JSObj) : JSObj :=
  b.foldl (fun acc kv => setKey acc kv.1 kv.2) a

/-- The explorer-inheritance pass of `_genCurrencyList`: iterate over the
pool map's keys (in insertion order), mutating the explorer map as it goes;
a key with a falsy explorer entry receives its pool-mate's explorer entry
when that one is truthy. -/
def inheritExplorers (pool explorer : JSObj) : JSObj :=
  (pool.map (fun kv => kv.1)).foldl (fun expl key =>
    if jsTruthy (getKey expl key) then expl
    else
      let poolKey := jsKeyString (getKey pool key)
      if jsTruthy (getKey expl poolKey) then
        setKey expl key (getKey expl poolKey)
      else expl) explorer

/-- The list a component of the 6-element config response is used as.  The
source casts (`data[0] as unknown[]`); only array components are meaningful. -/
def asArr : JSVal → List JSVal
  | .arr xs => xs
  | _ => []

/-- One output record of `_genCurrencyList` for a key of the unioned
currency map. -/
def currencyRecord (allCurrObj mapedCurrSym pool explorer walletFx : JSObj)
    (key : String) : JSVal :=
  .arr [.str key,
        getKey allCurrObj key,
        jsOr (getKey pool key) .null,
        jsOr (getKey explorer key) (.arr []),
        jsOr (getKey mapedCurrSym key) (.str key),
        jsOr (getKey walletFx key) (.arr [])]

/-- Source `_genCurrencyList(data)`. -/
def genCurrencyList (data : JSVal) : JSVal :=
  match data with
  | .arr ds =>
      if ds.length = 6 then
        let listedCurr := transformArrToObj (asArr (ds[0]?.getD .undefined))
        let mapedCurrSym := transformArrToObj (asArr (ds[1]?.getD .undefined))
        let mapedCurrLabel := transformArrToObj (asArr (ds[2]?.getD .undefined))
        let pool := transformArrToObj (asArr (ds[3]?.getD .undefined))
        let explorer := transformArrToObj (asArr (ds[4]?.getD .undefined))
        let walletFx := transformArrToObj (asArr (ds[5]?.getD .undefined))
        let allCurrObj := mergeObj (mergeObj (mergeObj [] listedCurr) mapedCurrSym) mapedCurrLabel
        let explorer2 := inheritExplorers pool explorer
        .arr ((allCurrObj.map (fun kv => kv.1)).map
          (currencyRecord allCurrObj mapedCurrSym pool explorer2 walletFx))
      else data
  | _ => data

-- ---- Theorems ----

/-- C1: for every authenticated call via `_makeAuthRequest` with path `p` and
payload `body`, the canonical string handed to the signer is exactly
`/api/v2`, then `p`, then the nonce, then the JSON serialization of the
nil-stripped body, concatenated in that order with no separators; and
nil-stripping removes exactly the fields whose value is `null` or
`undefined` (a field holding an empty string is kept). -/
theorem c1_canonical_string (st : RESTv2State) (path : String)
    (payload : List (String × JSVal)) (n : String)
    (sign : String → String → String) (cb : Option Callback)
    (req : ReqDescr) (s : String)
    (h : makeAuthRequest st path payload n sign cb = .inr req)
    (hs : req.signerInput = some s) :
    s = "/api/v2" ++ path ++ n ++ (JSVal.obj (omitNil payload)).stringify ∧
    (∀ k v, (k, v) ∈ omitNil payload ↔
        ((k, v) ∈ payload ∧ v ≠ JSVal.null ∧ v ≠ JSVal.undefined)) ∧
    (∀ k, (k, JSVal.str "") ∈ payload → (k, JSVal.str "") ∈ omitNil payload) := by
  refine ⟨?_, ?_, ?_⟩
  · simp only [makeAuthRequest] at h
    split at h
    · exact absurd h (by simp)
    · split at h
      · cases h
        simp at hs
      · cases h
        exact (Option.some_inj.mp hs).symm
  · intro k v
    cases v <;> simp [omitNil, List.mem_filter, JSVal.isNil]
  · intro k hk
    simp [omitNil, List.mem_filter, JSVal.isNil, hk]

/-- Witness for C1 at a concrete client, path, nonce and payload: the
`null`-valued field `a` and the `undefined`-valued field `c` are stripped,
the empty-string field `b` is kept, and the signer receives the concatenated
canonical string. -/
theorem c1_canonical_string_witness :
    ("/api/v2/auth/r/orders1\x7b\"b\":\"\"\x7d" : String)
      = "/api/v2" ++ "/auth/r/orders" ++ "1" ++
        (JSVal.obj (omitNil [("a", JSVal.null), ("b", JSVal.str ""), ("c", JSVal.undefined)])).stringify :=
  (c1_canonical_string
    { url := "https://api.bitfinex.com", apiKey := "k", apiSecret := "sec",
      authToken := "", company := "", transform := false, timeout := 15000,
      affCode := none }
    "/auth/r/orders" [("a", JSVal.null), ("b", JSVal.str ""), ("c", JSVal.undefined)]
    "1" (fun _ p => p) none
    { url := "https://api.bitfinex.com/v2/auth/r/orders", method := "POST",
      headers := [("content-type", "application/json"), ("bfx-nonce", "1"),
                  ("bfx-apikey", "k"),
                  ("bfx-signature", "/api/v2/auth/r/orders1\x7b\"b\":\"\"\x7d")],
      body := "\x7b\"b\":\"\"\x7d",
      signerInput := some "/api/v2/auth/r/orders1\x7b\"b\":\"\"\x7d" }
    "/api/v2/auth/r/orders1\x7b\"b\":\"\"\x7d" rfl rfl).1

/-- C2: a call to `_makeAuthRequest` on a client with neither (a non-empty
api key and a non-empty api secret) nor a non-empty auth token fails with
the missing-credentials error, and the transport is never invoked (the
outcome is the `Sum.inl` early return, which builds no request). -/
theorem c2_missing_credentials (st : RESTv2State) (path : String)
    (payload : List (String × JSVal)) (n : String)
    (sign : String → String → String) (cb : Option Callback)
    (h : ¬ ((st.apiKey ≠ "" ∧ st.apiSecret ≠ "") ∨ st.authToken ≠ "")) :
    makeAuthRequest st path payload n sign cb =
      .inl (cbStep (some (mkError "missing api key or secret")) (.plain .null) cb) := by
  push_neg at h
  simp only [makeAuthRequest]
  rw [if_pos]
  constructor
  · by_cases hk : st.apiKey = ""
    · exact Or.inl hk
    · exact Or.inr (h.1 hk)
  · exact h.2

/-- Witness for C2: a freshly constructed client with no credentials rejects
with the missing-credentials error without building a request. -/
theorem c2_missing_credentials_witness :
    makeAuthRequest
      { url := "https://api.bitfinex.com", apiKey := "", apiSecret := "",
        authToken := "", company := "", transform := false, timeout := 15000,
        affCode := none }
      "/auth/r/wallets" [] "1" (fun _ _ => "sig") none =
      .inl (cbStep (some (mkError "missing api key or secret")) (.plain .null) none) :=
  c2_missing_credentials _ "/auth/r/wallets" [] "1" (fun _ _ => "sig") none (by simp)

/-- C3: `_apiError` builds an error whose message is `HTTP code {s} {t}`,
whose `status`/`statustext` are always set, and whose `code`/`response` are
determined by the raw body: a JSON array of length at least 3 contributes
elements 1 and 2 as `code` and `response`; any other JSON shape becomes
`response` verbatim with `code` unset; an unparsable body becomes `response`
as the raw string. -/
theorem c3_api_error_classification (parse : String → Except ErrRec JSVal)
    (status : Nat) (statusText rawBody : String) :
    (apiError parse status statusText rawBody).message
        = "HTTP code " ++ toString status ++ " " ++ statusText ∧
    (apiError parse status statusText rawBody).status = some status ∧
    (apiError parse status statusText rawBody).statustext = some statusText ∧
    (∀ xs, parse rawBody = .ok (.arr xs) → 3 ≤ xs.length →
        (apiError parse status statusText rawBody).code = xs[1]? ∧
        (apiError parse status statusText rawBody).response = xs[2]?) ∧
    (∀ v, parse rawBody = .ok v → (∀ xs, v = .arr xs → xs.length < 3) →
        (apiError parse status statusText rawBody).code = none ∧
        (apiError parse status statusText rawBody).response = some v) ∧
    (∀ e, parse rawBody = .error e →
        (apiError parse status statusText rawBody).code = none ∧
        (apiError parse status statusText rawBody).response = some (.str rawBody)) := by
  refine ⟨?_, ?_, ?_, ?_, ?_, ?_⟩
  · cases hp : parse rawBody with
    | error e => simp [apiError, hp]
    | ok v => cases v <;> simp [apiError, hp] <;> split <;> rfl
  · cases hp : parse rawBody with
    | error e => simp [apiError, hp]
    | ok v => cases v <;> simp [apiError, hp] <;> split <;> rfl
  · cases hp : parse rawBody with
    | error e => simp [apiError, hp]
    | ok v => cases v <;> simp [apiError, hp] <;> split <;> rfl
  · intro xs hp h3
    simp only [apiError, hp]
    rw [if_pos h3]
    exact ⟨rfl, rfl⟩
  · intro v hp hlt
    cases v with
    | arr xs =>
        simp only [apiError, hp]
        rw [if_neg (by have := hlt xs rfl; omega)]
        exact ⟨rfl, rfl⟩
    | null => simp [apiError, hp]
    | undefined => simp [apiError, hp]
    | bool b => simp [apiError, hp]
    | num n => simp [apiError, hp]
    | str s => simp [apiError, hp]
    | obj fs => simp [apiError, hp]
  · intro e hp
    simp [apiError, hp]

/-- Witness for C3: the three exemplar bodies — an error triple, a JSON
object, and a non-JSON body — classified at concrete statuses. -/
theorem c3_api_error_classification_witness :
    (apiError (fun _ => .ok (.arr [.str "error", .num 10010, .str "ERR_RATE_LIMIT"]))
        400 "Bad Request" "x").code = some (.num 10010) ∧
    (apiError (fun _ => .ok (.arr [.str "error", .num 10010, .str "ERR_RATE_LIMIT"]))
        400 "Bad Request" "x").response = some (.str "ERR_RATE_LIMIT") ∧
    (apiError (fun _ => .ok (.obj [("error", .str "internal")]))
        500 "Internal Server Error" "y").response = some (.obj [("error", .str "internal")]) ∧
    (apiError (fun _ => .error (mkError "Unexpected token B in JSON"))
        502 "Bad Gateway" "Bad Gateway").response = some (.str "Bad Gateway") := by
  refine ⟨?_, ?_, ?_, ?_⟩
  · exact ((c3_api_error_classification _ 400 "Bad Request" "x").2.2.2.1
      [.str "error", .num 10010, .str "ERR_RATE_LIMIT"] rfl (by decide)).1
  · exact ((c3_api_error_classification _ 400 "Bad Request" "x").2.2.2.1
      [.str "error", .num 10010, .str "ERR_RATE_LIMIT"] rfl (by decide)).2
  · exact ((c3_api_error_classification _ 500 "Internal Server Error" "y").2.2.2.2.1
      (.obj [("error", .str "internal")]) rfl (by intro xs hxs; cases hxs)).2
  · exact ((c3_api_error_classification _ 502 "Bad Gateway" "Bad Gateway").2.2.2.2.2
      (mkError "Unexpected token B in JSON") rfl).2

/-- C4: the transform step of `_response` returns the data unchanged when the
client's transform flag is off or the transformer is `null`; with the flag on,
a class transformer maps empty or falsy data to an empty array, a 2-D array
to one constructed instance per inner row, and anything else to a single
constructed instance wrapping the whole datum; a plain function transformer is
applied to the data with no shape inspection. -/
theorem c4_transform_dispatch (st : RESTv2State) (data : JSVal) (cls : String)
    (f : JSVal → Except ErrRec TVal) (t : Transformer) :
    (st.transform = false → transformStep st data t = .ok (.plain data)) ∧
    (t = .null → transformStep st data t = .ok (.plain data)) ∧
    (st.transform = true → jsTruthy data = false ∨ data = .arr [] →
        transformStep st data (.ctor cls) = .ok (.list [])) ∧
    (st.transform = true → ∀ x rest, data = .arr (x :: rest) → x.isArr = true →
        transformStep st data (.ctor cls)
          = .ok (.list ((x :: rest).map (fun row => .inst cls row)))) ∧
    (st.transform = true → jsTruthy data = true → data ≠ .arr [] →
        (∀ x rest, data = .arr (x :: rest) → x.isArr = false) →
        transformStep st data (.ctor cls) = .ok (.inst cls data)) ∧
    (st.transform = true → transformStep st data (.fn f) = f data) := by
  refine ⟨?_, ?_, ?_, ?_, ?_, ?_⟩
  · intro hf
    simp [transformStep, hf]
  · intro ht
    subst ht
    simp [transformStep, doTransform]
  · intro hf hd
    rcases hd with hd | hd
    · simp [transformStep, hf, doTransform, classTransform, hd]
    · subst hd
      simp [transformStep, hf, doTransform, classTransform]
  · intro hf x rest hd hx
    subst hd
    simp [transformStep, hf, doTransform, classTransform, hx, jsTruthy]
  · intro hf htruthy hne h2d
    simp only [transformStep, hf, if_true, doTransform, classTransform]
    rw [if_neg, if_neg (by simp [hf])]
    · cases data with
      | arr xs =>
          cases xs with
          | nil => exact absurd rfl hne
          | cons x rest => simp [h2d x rest rfl]
      | null => rfl
      | undefined => rfl
      | bool b => rfl
      | num n => rfl
      | str s => rfl
      | obj fs => rfl
    · simp only [htruthy, Bool.not_true, Bool.false_or]
      cases data with
      | arr xs =>
          cases xs with
          | nil => exact absurd rfl hne
          | cons x rest => simp
      | null => simp
      | undefined => simp
      | bool b => simp
      | num n => simp
      | str s => simp
      | obj fs => simp
  · intro hf
    simp [transformStep, hf, doTransform]

/-- Witness for C4 at the spec's exemplar inputs: a 2-D array maps to two
constructed instances, a flat array to one instance wrapping it, an empty
array to an empty sequence, and with the flag off data passes through. -/
theorem c4_transform_dispatch_witness :
    transformStep
        { url := "https://api.bitfinex.com", apiKey := "", apiSecret := "",
          authToken := "", company := "", transform := true, timeout := 15000,
          affCode := none }
        (.arr [.arr [.num 1, .num 2], .arr [.num 3, .num 4]]) (.ctor "M")
      = .ok (.list [.inst "M" (.arr [.num 1, .num 2]), .inst "M" (.arr [.num 3, .num 4])]) ∧
    transformStep
        { url := "https://api.bitfinex.com", apiKey := "", apiSecret := "",
          authToken := "", company := "", transform := true, timeout := 15000,
          affCode := none }
        (.arr [.num 1, .num 2, .num 3]) (.ctor "M")
      = .ok (.inst "M" (.arr [.num 1, .num 2, .num 3])) ∧
    transformStep
        { url := "https://api.bitfinex.com", apiKey := "", apiSecret := "",
          authToken := "", company := "", transform := true, timeout := 15000,
          affCode := none }
        (.arr []) (.ctor "M") = .ok (.list []) ∧
    transformStep
        { url := "https://api.bitfinex.com", apiKey := "", apiSecret := "",
          authToken := "", company := "", transform := false, timeout := 15000,
          affCode := none }
        (.arr [.num 1, .num 2, .num 3]) (.ctor "M")
      = .ok (.plain (.arr [.num 1, .num 2, .num 3])) := by
  refine ⟨?_, ?_, ?_, ?_⟩
  · exact (c4_transform_dispatch _ _ "M" (fun d => .ok (.plain d)) (.ctor "M")).2.2.2.1
      rfl (.arr [.num 1, .num 2]) [.arr [.num 3, .num 4]] rfl rfl
  · exact (c4_transform_dispatch _ _ "M" (fun d => .ok (.plain d)) (.ctor "M")).2.2.2.2.1
      rfl rfl (by simp) (by intro x rest h; injection h with h1; injection h1 with hx hrest; cases hx; rfl)
  · exact (c4_transform_dispatch _ _ "M" (fun d => .ok (.plain d)) (.ctor "M")).2.2.1
      rfl (Or.inr rfl)
  · exact (c4_transform_dispatch _ _ "M" (fun d => .ok (.plain d)) (.ctor "M")).1 rfl

/-- Specification-side predicate for C5: a timeout value that is a positive
integer. -/
def JSNumber.isPosInteger : JSNumber → Bool
  | .int i => decide (0 < i)
  | .nonint => false

/-- C5 counterexample: a supplied timeout of `-5` is an integer but not a
positive one, yet construction succeeds — `_checkOpts` tests only
`Number.isInteger`, never positivity, so the claim that any supplied
non-positive-integer timeout fails construction is false. -/
theorem c5_counterexample :
    JSNumber.isPosInteger (.int (-5)) = false ∧
    Except.isOkB (construct
      { affCode := none, apiKey := none, apiSecret := none, authToken := none,
        company := none, url := none, transform := none,
        timeout := some (.int (-5)) }) = true ∧
    (construct
      { affCode := none, apiKey := none, apiSecret := none, authToken := none,
        company := none, url := none, transform := none,
        timeout := some (.int (-5)) })
      = .ok { url := "https://api.bitfinex.com", apiKey := "", apiSecret := "",
              authToken := "", company := "", transform := false,
              timeout := -5, affCode := none } :=
  ⟨rfl, rfl, rfl⟩

/-- C5 (amended): construction throws synchronously exactly when a timeout is
supplied and is not an integer (positivity is not checked: zero and negative
integer timeouts are accepted and stored); construction with an unsupplied
timeout succeeds. -/
theorem c5_timeout_validation (opts : RESTv2Options) :
    (Except.isOkB (construct opts) = false ↔
        ∃ t, opts.timeout = some t ∧ t.isInteger = false) ∧
    (opts.timeout = none → Except.isOkB (construct opts) = true) := by
  constructor
  · cases ht : opts.timeout with
    | none => simp [construct, checkOpts, ht, Except.isOkB]
    | some t =>
        cases t with
        | int i => simp [construct, checkOpts, ht, Except.isOkB, JSNumber.isInteger]
        | nonint => simp [construct, checkOpts, ht, Except.isOkB, JSNumber.isInteger]
  · intro ht
    simp [construct, checkOpts, ht, Except.isOkB]

/-- Witness for C5 (amended): an options object with no timeout constructs
successfully, and one with a non-integral timeout fails. -/
theorem c5_timeout_validation_witness :
    Except.isOkB (construct emptyOpts) = true ∧
    Except.isOkB (construct
      { affCode := none, apiKey := none, apiSecret := none, authToken := none,
        company := none, url := none, transform := none,
        timeout := some .nonint }) = false :=
  ⟨(c5_timeout_validation emptyOpts).2 rfl,
   (c5_timeout_validation _).1.mpr ⟨.nonint, rfl, rfl⟩⟩

/-- C6 counterexample: a non-success response whose body is the server's
nonce-too-small triple `["error", 10114, "nonce: small"]` is classified into
an error whose structured `code` is 10114, yet the surfaced message carries
no help-link: `_cb` inspects only an `error` property, which `_apiError`
never sets, so the claim that every error with code 10114 is surfaced with
the help-link substring is false. -/
theorem c6_counterexample :
    request_
        { url := "https://api.bitfinex.com", apiKey := "", apiSecret := "",
          authToken := "", company := "", transform := false, timeout := 15000,
          affCode := none }
        (fun _ => .ok (.arr [.str "error", .num 10114, .str "nonce: small"]))
        .null none
        (.resp false 500 "Internal Server Error" "[\"error\",10114,\"nonce: small\"]")
      = .reject
          { message := "HTTP code 500 Internal Server Error",
            status := some 500, statustext := some "Internal Server Error",
            code := some (.num 10114), response := some (.str "nonce: small"),
            error := none } ∧
    ¬ (HELP_LINK.data <:+:
        ("HTTP code 500 Internal Server Error" : String).data) := by
  refine ⟨rfl, ?_⟩
  intro hinf
  have hle := hinf.length_le
  revert hle
  decide

/-- C6 (amended): the surfaced message is enriched with the help-link suffix
exactly when the error object carries an `error` property holding an array
whose element at index 1 is the number 10114; neither the structured `code`
field nor the message text is consulted, and errors built by `_apiError`
never carry an `error` property, so classified HTTP failures are surfaced
with their message unchanged. -/
theorem c6_enrichment (e : ErrRec) (x : TVal) :
    cbStep (some e) x none = .reject (enrich10114 e) ∧
    (∀ xs, e.error = some (.arr xs) → xs[1]? = some (.num 10114) →
        (enrich10114 e).message = e.message ++ HELP_LINK) ∧
    ((∀ xs, e.error = some (.arr xs) → xs[1]? ≠ some (.num 10114)) →
        (enrich10114 e).message = e.message) ∧
    (e.error = none → enrich10114 e = e) ∧
    (∀ parse status statusText rawBody,
        (apiError parse status statusText rawBody : ErrRec).error = none) := by
  refine ⟨rfl, ?_, ?_, ?_, ?_⟩
  · intro xs herr h1
    simp [enrich10114, herr, h1]
  · intro hmiss
    cases herr : e.error with
    | none => simp [enrich10114, herr]
    | some v =>
        cases v with
        | arr xs =>
            have hne := hmiss xs herr
            simp only [enrich10114, herr]
            cases h1 : xs[1]? with
            | none => rfl
            | some w =>
                cases w with
                | num m =>
                    have hm : m ≠ 10114 := fun hm => hne (by rw [h1, hm])
                    simp [hm]
                | null => rfl
                | undefined => rfl
                | bool b => rfl
                | str s => rfl
                | arr ys => rfl
                | obj fs => rfl
        | null => simp [enrich10114, herr]
        | undefined => simp [enrich10114, herr]
        | bool b => simp [enrich10114, herr]
        | num n => simp [enrich10114, herr]
        | str s => simp [enrich10114, herr]
        | obj fs => simp [enrich10114, herr]
  · intro herr
    simp [enrich10114, herr]
  · intro parse status statusText rawBody
    cases hp : parse rawBody with
    | error e2 => simp [apiError, hp]
    | ok v => cases v <;> simp [apiError, hp] <;> split <;> rfl

/-- Witness for C6 (amended): an error carrying `error = ["error", 10114,
"nonce: small"]` is surfaced with the help link appended; one carrying code
10020 in the same property is surfaced unchanged. -/
theorem c6_enrichment_witness :
    (enrich10114
      { message := "nonce: small", status := none, statustext := none,
        code := none, response := none,
        error := some (.arr [.str "error", .num 10114, .str "nonce: small"]) }).message
      = "nonce: small" ++ HELP_LINK ∧
    (enrich10114
      { message := "some error", status := none, statustext := none,
        code := none, response := none,
        error := some (.arr [.str "error", .num 10020, .str "some error"]) }).message
      = "some error" := by
  constructor
  · exact (c6_enrichment _ (.plain .null)).2.1
      [.str "error", .num 10114, .str "nonce: small"] rfl rfl
  · exact (c6_enrichment _ (.plain .null)).2.2.1
      (by intro xs hxs; injection hxs with h1; cases h1; simp)

/-- C7 counterexample: explorer inheritance does chain transitively when the
pool map lists the intermediate key first.  With pools `B -> C`, `A -> B`
(in that insertion order) and a direct explorer entry only for `C`, the pass
first copies `C`'s entry to `B` and then — reading the explorer map it just
mutated — copies it on to `A`, although `A`'s pool-mate `B` has no direct
explorer entry; the claim that such a key does not chain further is false. -/
theorem c7_counterexample :
    genCurrencyList (.arr [.arr [.str "A"], .arr [], .arr [],
        .arr [.arr [.str "B", .str "C"], .arr [.str "A", .str "B"]],
        .arr [.arr [.str "C", .arr [.str "u"]]], .arr []])
      = .arr [.arr [.str "A", .str "A", .str "B", .arr [.str "u"], .str "A",
                    .arr []]] := rfl

/-- C7 (amended): explorer inheritance is a single pass over the pool keys in
insertion order that mutates the explorer map as it proceeds, so a key whose
pool-mate has no direct explorer entry does chain through the pool-mate's
inherited entry exactly when the pool-mate precedes it in the pool map, and
does not chain when it follows; the USDT example holds as stated: its output
record inherits the ETH explorer list via the pool. -/
theorem c7_pool_explorer_inheritance :
    genCurrencyList (.arr [.arr [.str "USDT"],
        .arr [.arr [.str "USDT", .str "USDT"]],
        .arr [.arr [.str "USDT", .str "Tether"]],
        .arr [.arr [.str "USDT", .str "ETH"]],
        .arr [.arr [.str "ETH", .arr [.str "https://etherscan.io"]]],
        .arr []])
      = .arr [.arr [.str "USDT", .str "Tether", .str "ETH",
                    .arr [.str "https://etherscan.io"], .str "USDT", .arr []]] ∧
    inheritExplorers [("B", .str "C"), ("A", .str "B")] [("C", .arr [.str "u"])]
      = [("C", .arr [.str "u"]), ("B", .arr [.str "u"]), ("A", .arr [.str "u"])] ∧
    inheritExplorers [("A", .str "B"), ("B", .str "C")] [("C", .arr [.str "u"])]
      = [("C", .arr [.str "u"]), ("B", .arr [.str "u"])] :=
  ⟨rfl, rfl, rfl⟩

-- ---- Key-order lemmas for the currency merger ----

/-- The key list of a JS object, in property order. -/
def objKeys (m : JSObj) : List String := m.map (fun kv => kv.1)

/-- One step of first-occurrence deduplication. -/
def dedupStep (acc : List String) (k : String) : List String :=
  if k ∈ acc then acc else acc ++ [k]

/-- First-occurrence deduplication, preserving order and applying no sort. -/
def dedupKeepFirst (l : List String) : List String := l.foldl dedupStep []

/-- Specification-side description of the unioned key set of the
listed-currency, symbol and label maps: the concatenation of their key lists
with later duplicates dropped — insertion order, no sort. -/
def unionKeysSpec (l0 l1 l2 : List JSVal) : List String :=
  dedupKeepFirst (objKeys (transformArrToObj l0) ++ objKeys (transformArrToObj l1)
    ++ objKeys (transformArrToObj l2))

theorem objKeys_setKey (m : JSObj) (k : String) (v : JSVal) :
    objKeys (setKey m k v) = if k ∈ objKeys m then objKeys m else objKeys m ++ [k] := by
  unfold setKey
  by_cases h : List.any m (fun kv => kv.1 == k) = true
  · rw [if_pos h, if_pos]
    · unfold objKeys
      rw [List.map_map]
      apply List.map_congr_left
      intro kv _
      by_cases hk : (kv.1 == k) = true
      · simp only [Function.comp_apply, hk, if_pos]
        exact (eq_of_beq hk).symm
      · simp only [Function.comp_apply, hk]
        rfl
    · rcases List.any_eq_true.mp h with ⟨kv, hmem, hbeq⟩
      exact List.mem_map.mpr ⟨kv, hmem, eq_of_beq hbeq⟩
  · rw [if_neg h, if_neg]
    · unfold objKeys
      rw [List.map_append]
      rfl
    · intro hk
      apply h
      rcases List.mem_map.mp hk with ⟨kv, hmem, hkeq⟩
      exact List.any_eq_true.mpr ⟨kv, hmem, by simp [hkeq]⟩

theorem objKeys_mergeObj (a b : JSObj) :
    objKeys (mergeObj a b) = (objKeys b).foldl dedupStep (objKeys a) := by
  induction b generalizing a with
  | nil => rfl
  | cons kv b ih =>
      show objKeys (mergeObj (setKey a kv.1 kv.2) b)
        = List.foldl dedupStep (dedupStep (objKeys a) kv.1) (objKeys b)
      rw [ih, objKeys_setKey]
      rfl

theorem nodup_foldl_dedupStep (l : List String) :
    ∀ acc : List String, acc.Nodup → (l.foldl dedupStep acc).Nodup := by
  induction l with
  | nil => exact fun acc h => h
  | cons k l ih =>
      intro acc h
      apply ih
      unfold dedupStep
      by_cases hk : k ∈ acc
      · rw [if_pos hk]
        exact h
      · rw [if_neg hk]
        simp [List.nodup_append, h, hk]

theorem dedupKeepFirst_nodup (l : List String) : (dedupKeepFirst l).Nodup :=
  nodup_foldl_dedupStep l [] List.nodup_nil

theorem unionKeys_eq (A B C : JSObj) :
    objKeys (mergeObj (mergeObj (mergeObj [] A) B) C)
      = dedupKeepFirst (objKeys A ++ objKeys B ++ objKeys C) := by
  rw [objKeys_mergeObj, objKeys_mergeObj, objKeys_mergeObj]
  unfold dedupKeepFirst
  rw [List.foldl_append, List.foldl_append]
  rfl

/-- C8: a 6-element config array yields exactly one record per key of the
union of the listed-currency, symbol-map and label-map key sets — the record
being `[key, displayName, poolIdOrNull, explorerListOrEmpty, symbolOrKey,
walletFxOrEmpty]` — emitted in the insertion order of the unioned key set
with no sort applied; any other input is returned unchanged. -/
theorem c8_currency_list_shape (l0 l1 l2 l3 l4 l5 : List JSVal) :
    genCurrencyList (.arr [.arr l0, .arr l1, .arr l2, .arr l3, .arr l4, .arr l5])
      = .arr ((unionKeysSpec l0 l1 l2).map
          (currencyRecord
            (mergeObj (mergeObj (mergeObj [] (transformArrToObj l0))
              (transformArrToObj l1)) (transformArrToObj l2))
            (transformArrToObj l1) (transformArrToObj l3)
            (inheritExplorers (transformArrToObj l3) (transformArrToObj l4))
            (transformArrToObj l5))) ∧
    (unionKeysSpec l0 l1 l2).Nodup ∧
    (∀ ds : List JSVal, ds.length ≠ 6 → genCurrencyList (.arr ds) = .arr ds) ∧
    (∀ v : JSVal, v.isArr = false → genCurrencyList v = v) := by
  refine ⟨?_, dedupKeepFirst_nodup _, ?_, ?_⟩
  · have hk := unionKeys_eq (transformArrToObj l0) (transformArrToObj l1)
      (transformArrToObj l2)
    show JSVal.arr
        ((objKeys (mergeObj (mergeObj (mergeObj [] (transformArrToObj l0))
            (transformArrToObj l1)) (transformArrToObj l2))).map
          (currencyRecord
            (mergeObj (mergeObj (mergeObj [] (transformArrToObj l0))
              (transformArrToObj l1)) (transformArrToObj l2))
            (transformArrToObj l1) (transformArrToObj l3)
            (inheritExplorers (transformArrToObj l3) (transformArrToObj l4))
            (transformArrToObj l5)))
      = _
    rw [hk]
    rfl
  · intro ds h
    simp only [genCurrencyList]
    rw [if_neg h]
  · intro v hv
    cases v with
    | arr xs => simp [JSVal.isArr] at hv
    | null => rfl
    | undefined => rfl
    | bool b => rfl
    | num n => rfl
    | str s => rfl
    | obj fs => rfl

/-- Witness for C8: a 1-element input and a non-array input pass through
unchanged. -/
theorem c8_currency_list_shape_witness :
    genCurrencyList (.arr [.arr [.str "BTC"]]) = .arr [.arr [.str "BTC"]] ∧
    genCurrencyList (.num 5) = .num 5 :=
  ⟨(c8_currency_list_shape [] [] [] [] [] []).2.2.1 [.arr [.str "BTC"]] (by simp),
   (c8_currency_list_shape [] [] [] [] [] []).2.2.2 (.num 5) rfl⟩

/-- C9: with no callback, every classified error — a transport failure, a
non-success HTTP response, a JSON parse failure on a success response, and
an exception thrown inside a registered transformer — surfaces as a rejected
outcome carrying the structured error (subject only to the `_cb` message
enrichment); a transformation failure never yields a partial result. -/
theorem c9_error_propagation (st : RESTv2State)
    (parse : String → Except ErrRec JSVal) (t : Transformer)
    (fetched : FetchOutcome) :
    (∀ e, fetched = .fail e →
        request_ st parse t none fetched = .reject (enrich10114 e)) ∧
    (∀ status statusText body, fetched = .resp false status statusText body →
        request_ st parse t none fetched
          = .reject (enrich10114 (apiError parse status statusText body))) ∧
    (∀ status statusText body e, fetched = .resp true status statusText body →
        parse body = .error e →
        request_ st parse t none fetched = .reject (enrich10114 e)) ∧
    (∀ status statusText body json e, fetched = .resp true status statusText body →
        parse body = .ok json → transformStep st json t = .error e →
        request_ st parse t none fetched = .reject (enrich10114 e)) := by
  refine ⟨?_, ?_, ?_, ?_⟩
  · intro e hf
    subst hf
    rfl
  · intro status statusText body hf
    subst hf
    rfl
  · intro status statusText body e hf hp
    subst hf
    simp [request_, hp, cbStep]
  · intro status statusText body json e hf hp htr
    subst hf
    simp [request_, hp, response_, htr, cbStep]

/-- Witness for C9: a transformer that throws turns a successful HTTP
response into a rejection carrying the thrown error — not a partial result. -/
theorem c9_error_propagation_witness :
    request_
        { url := "https://api.bitfinex.com", apiKey := "", apiSecret := "",
          authToken := "", company := "", transform := true, timeout := 15000,
          affCode := none }
        (fun _ => .ok (.arr []))
        (.fn (fun _ => .error (mkError "transform boom"))) none
        (.resp true 200 "OK" "[]")
      = .reject (mkError "transform boom") :=
  (c9_error_propagation _ _ _ _).2.2.2 200 "OK" "[]" (.arr [])
    (mkError "transform boom") rfl rfl rfl

/-- C10: with a function-shaped callback the promise never rejects — every
error is delivered as the callback's first argument (and the promise
resolves with the callback's return value), success is delivered as
`(null, result)` — and rejection occurs only when no callback is supplied;
the missing-credentials early return of `_makeAuthRequest` follows the same
rule. -/
theorem c10_callback_channel (st : RESTv2State)
    (parse : String → Except ErrRec JSVal) (t : Transformer) (f : Callback)
    (fetched : FetchOutcome) :
    (request_ st parse t (some f) fetched).isResolve = true ∧
    (∀ e x, cbStep (some e) x (some f)
        = .resolve (f (some (enrich10114 e)) (.plain .undefined))) ∧
    (∀ res, cbStep none res (some f) = .resolve (f none res)) ∧
    (∀ e x, cbStep (some e) x none = .reject (enrich10114 e)) ∧
    (∀ res, cbStep none res none = .resolve res) ∧
    (∀ path payload n sign out,
        makeAuthRequest st path payload n sign (some f) = .inl out →
        out.isResolve = true) := by
  refine ⟨?_, fun e x => rfl, fun res => rfl, fun e x => rfl, fun res => rfl, ?_⟩
  · cases fetched with
    | fail e => rfl
    | resp ok status statusText body =>
        cases ok with
        | false => rfl
        | true =>
            simp only [request_]
            cases parse body with
            | error e => rfl
            | ok json =>
                simp only [response_]
                cases transformStep st json t with
                | error e => rfl
                | ok res => rfl
  · intro path payload n sign out h
    simp only [makeAuthRequest] at h
    split at h
    · cases h
      rfl
    · split at h <;> cases h

/-- Witness for C10: the missing-credentials early return with a callback
resolves (the callback absorbed the error and returned `null`). -/
theorem c10_callback_channel_witness :
    CbOutcome.isResolve (.resolve (.plain .null)) = true :=
  (c10_callback_channel
    { url := "https://api.bitfinex.com", apiKey := "", apiSecret := "",
      authToken := "", company := "", transform := false, timeout := 15000,
      affCode := none }
    (fun _ => .ok .null) .null (fun _ _ => .plain .null)
    (.resp true 200 "OK" "[]")).2.2.2.2.2
    "/auth/r/wallets" [] "1" (fun _ _ => "sig") (.resolve (.plain .null)) rfl

end BfxRest
